import Mathlib

/-!
Shallow embedding of the hardware-multiplexing core of the idfx component
library: the PWM timer pool, the LEDC channel allocator and the OutputPWM
class from src/src/hardware/io.cpp, and the GPIO interrupt dispatcher
(queue, worker task and ISR) from the interrupt-handling unit compiled with
src/src/hardware/pca9557.cpp.  Pure functions of the C++ code become Lean
functions; the file-scope mutable maps and sets become explicit state records
threaded through the operations.  Heap objects (PWMTimer instances created
with new) are modelled by allocation identifiers so that pointer identity and
reference counts can be stated faithfully.
-/

namespace Idfx

/-- Association-list lookup, modelling std::map::find keyed on Nat. -/
def alistLookup {α : Type} (m : List (Nat × α)) (k : Nat) : Option α :=
  match m with
  | [] => none
  | (k2, v) :: rest => if k2 = k then some v else alistLookup rest k

/-- Association-list insert-or-overwrite, modelling assignment through
std::map operator[]. -/
def alistSet {α : Type} (m : List (Nat × α)) (k : Nat) (v : α) : List (Nat × α) :=
  match m with
  | [] => [(k, v)]
  | (k2, w) :: rest => if k2 = k then (k, v) :: rest else (k2, w) :: alistSet rest k v

/-- Association-list key removal, modelling std::map::erase. -/
def alistErase {α : Type} (m : List (Nat × α)) (k : Nat) : List (Nat × α) :=
  m.filter (fun p => p.1 ≠ k)

/-- Platform constant LEDC_TIMER_MAX from driver/ledc.h (4 LEDC timers on
the target platform). -/
def LEDC_TIMER_MAX : Nat := 4

/-- Platform constant LEDC_CHANNEL_MAX from driver/ledc.h (8 LEDC channels
on the target platform). -/
def LEDC_CHANNEL_MAX : Nat := 8

/-- Maximum duty value: the timers are configured with LEDC_TIMER_12_BIT
resolution, so duty ranges over 0 to 2 to the 12th = 4096 (PWMTimer::MAX_DUTY). -/
def MAX_DUTY : Nat := 4096

/-- One live PWMTimer heap object.  objId is the allocation identity (the
address of the object created with new); timer_num_, freq_hz_ and
num_references_ are the data members of the C++ class. -/
structure PWMTimer where
  objId : Nat
  timer_num_ : Nat
  freq_hz_ : Nat
  num_references_ : Nat
deriving Repr, DecidableEq

/-- State of the timer pool: the allocation counter, every PWMTimer object
that has been created with new and not yet deleted, and the file-scope map
timers_in_use from timer number to (the address of) the PWMTimer registered
for it. -/
structure TimerPoolState where
  nextObjId : Nat
  live : List PWMTimer
  timers_in_use : List (Nat × Nat)
deriving Repr, DecidableEq

/-- The empty pool: no object allocated, timers_in_use empty. -/
def TimerPoolState.empty : TimerPoolState :=
  { nextObjId := 0, live := [], timers_in_use := [] }

/-- The std::clamp of the timer number performed by the PWMTimer
constructor: clamp(timer_num, LEDC_TIMER_0, LEDC_TIMER_MAX - 1).  The lower
bound 0 is vacuous over Nat. -/
def clampTimerNum (n : Nat) : Nat := min n (LEDC_TIMER_MAX - 1)

/-- The PWMTimer constructor: allocates a fresh object with the clamped
timer number, the requested frequency and reference count 1, and commits the
hardware timer configuration.  Note that the constructor does not touch
timers_in_use; registration there is done only by the caller
getAvailableTimer.  Returns the address of the new object. -/
def PWMTimer.construct (s : TimerPoolState) (timer_num freq_hz : Nat) :
    Nat × TimerPoolState :=
  let t : PWMTimer :=
    { objId := s.nextObjId
      timer_num_ := clampTimerNum timer_num
      freq_hz_ := freq_hz
      num_references_ := 1 }
  (s.nextObjId,
   { s with nextObjId := s.nextObjId + 1, live := s.live ++ [t] })

/-- PWMTimer::getAvailableTimer: scans timer numbers 0 .. LEDC_TIMER_MAX - 1
in ascending order for one with no entry in timers_in_use; constructs a new
PWMTimer for the first such number, records it in timers_in_use and returns
it.  Returns none (nullptr) when every timer number is occupied. -/
def getAvailableTimer (s : TimerPoolState) (freq_hz : Nat) :
    Option Nat × TimerPoolState :=
  match (List.range LEDC_TIMER_MAX).find?
      (fun n => (alistLookup s.timers_in_use n).isNone) with
  | some n =>
      let r := PWMTimer.construct s n freq_hz
      (some r.1, { r.2 with timers_in_use := alistSet r.2.timers_in_use n r.1 })
  | none => (none, s)

/-- PWMTimer::getTimer (acquireSpecific): if timers_in_use has an entry for
timer_num, increments the reference count of that object and returns it;
otherwise constructs a new PWMTimer and returns it.  Exactly as in the
source, the newly constructed timer is NOT inserted into timers_in_use. -/
def getTimer (s : TimerPoolState) (timer_num freq_hz : Nat) :
    Nat × TimerPoolState :=
  match alistLookup s.timers_in_use timer_num with
  | some oid =>
      (oid,
       { s with live := s.live.map (fun t =>
           if t.objId = oid then { t with num_references_ := t.num_references_ + 1 }
           else t) })
  | none => PWMTimer.construct s timer_num freq_hz

/-- PWMTimer::doneWithTimer (release): decrements the reference count of the
object at address oid; when it reaches 0, erases the timer number of that
object from timers_in_use (erase is by key, whatever object the entry points
at) and deletes the object. -/
def doneWithTimer (s : TimerPoolState) (oid : Nat) : TimerPoolState :=
  match s.live.find? (fun t => t.objId = oid) with
  | none => s
  | some t =>
      if t.num_references_ ≤ 1 then
        { s with
          timers_in_use := alistErase s.timers_in_use t.timer_num_
          live := s.live.filter (fun u => u.objId ≠ oid) }
      else
        { s with live := s.live.map (fun u =>
            if u.objId = oid then { u with num_references_ := u.num_references_ - 1 }
            else u) }

/-- Reference count of the live object at address oid, if it is live. -/
def TimerPoolState.refCount (s : TimerPoolState) (oid : Nat) : Option Nat :=
  (s.live.find? (fun t => t.objId = oid)).map PWMTimer.num_references_

/-- PWMTimer::kDefaultFrequency from the io header: the default value of the
freq_hz argument of PWMTimer::getAvailableTimer and PWMTimer::getTimer, and
hence the frequency with which the OutputPWM constructor, which calls
getAvailableTimer(), acquires its timer. -/
def kDefaultFrequency : Nat := 1000

/-- An OutputPWM object: pin, channel, the address of the shared timer, and
the stored duty member duty_.  The channel hardware configuration at
construction sets the initial duty to 0. -/
structure OutputPWM where
  gpio_num_ : Nat
  channel_ : Nat
  timer_obj : Nat
  duty_ : Nat
deriving Repr, DecidableEq

/-- Combined state touched by OutputPWM: the timer pool and the file-scope
set channels_used. -/
structure IOState where
  pool : TimerPoolState
  channels_used : List Nat
deriving Repr, DecidableEq

/-- std::set::insert on the channels_used set. -/
def insertChannel (chs : List Nat) (c : Nat) : List Nat :=
  if chs.contains c then chs else chs ++ [c]

/-- OutputPWM::get_available_channel: first channel number in
0 .. LEDC_CHANNEL_MAX - 1 not contained in channels_used; when every channel
is used it returns the sentinel LEDC_CHANNEL_MAX itself (not an error). -/
def get_available_channel (chs : List Nat) : Nat :=
  match (List.range LEDC_CHANNEL_MAX).find? (fun n => ! chs.contains n) with
  | some n => n
  | none => LEDC_CHANNEL_MAX

/-- Result of running the OutputPWM constructor.  nullDeref marks the
behaviour when PWMTimer::getAvailableTimer returns nullptr and the member
initializer speed_mode_(timer_ptr_->getSpeedMode()) dereferences the null
pointer: the program crashes (undefined behaviour), and no error value is
propagated. -/
inductive ConstructResult where
  | ok (out : OutputPWM) (s : IOState)
  | nullDeref
deriving Repr, DecidableEq

/-- The two-argument OutputPWM constructor: acquires a timer with
getAvailableTimer (dereferencing the result without a null check), records
the channel in channels_used and commits the channel hardware configuration
with initial duty 0.  There is no error path other than the crash. -/
def OutputPWM.construct (s : IOState) (gpio_num channel : Nat) : ConstructResult :=
  let r := getAvailableTimer s.pool kDefaultFrequency
  match r.1 with
  | none => ConstructResult.nullDeref
  | some oid =>
      ConstructResult.ok
        { gpio_num_ := gpio_num, channel_ := channel, timer_obj := oid, duty_ := 0 }
        { pool := r.2, channels_used := insertChannel s.channels_used channel }

/-- The one-argument OutputPWM constructor, delegating with
get_available_channel() as the channel argument. -/
def OutputPWM.constructAuto (s : IOState) (gpio_num : Nat) : ConstructResult :=
  OutputPWM.construct s gpio_num (get_available_channel s.channels_used)

/-- Pool state in which all four timer numbers are occupied: four successive
getAvailableTimer acquisitions from the empty pool. -/
def timersExhaustedPool : TimerPoolState :=
  (getAvailableTimer
    (getAvailableTimer
      (getAvailableTimer
        (getAvailableTimer TimerPoolState.empty 1000).2 1000).2 1000).2 1000).2

/-- IOState with every timer occupied and no channel used. -/
def timersExhaustedState : IOState :=
  { pool := timersExhaustedPool, channels_used := [] }

/-- IOState with every one of the eight channels used and all timers free. -/
def channelsExhaustedState : IOState :=
  { pool := TimerPoolState.empty, channels_used := List.range LEDC_CHANNEL_MAX }

/-- Claim C1 (code_bug evaluation): starting from a pool with no live Timer,
calling acquireSpecific (PWMTimer::getTimer) twice for timer id 0 without an
intervening release does not return the same Timer with reference count 2.
The source omits the timers_in_use registration of a timer created by
getTimer, so the second call constructs a second, distinct object; both
objects have reference count 1 and timers_in_use remains empty. -/
theorem getTimer_twice_distinct_objects :
    (getTimer TimerPoolState.empty 0 1000).1 ≠
      (getTimer (getTimer TimerPoolState.empty 0 1000).2 0 1000).1 ∧
    (getTimer (getTimer TimerPoolState.empty 0 1000).2 0 1000).2.refCount
      (getTimer TimerPoolState.empty 0 1000).1 = some 1 ∧
    (getTimer (getTimer TimerPoolState.empty 0 1000).2 0 1000).2.refCount
      (getTimer (getTimer TimerPoolState.empty 0 1000).2 0 1000).1 = some 1 ∧
    (getTimer (getTimer TimerPoolState.empty 0 1000).2 0 1000).2.timers_in_use = [] := by
  decide

/-- Claim C2 (code_bug evaluation): after the operation sequence consisting
of two acquireSpecific calls for timer id 0 from the empty pool, two live
Timer objects both carry timer identity 0, so the mapping from timer
identity to live Timer is not injective, and neither object is recorded in
the live-identity map timers_in_use, so release bookkeeping cannot remove
them from it.  The claimed invariant fails on this three-operation trace. -/
theorem injectivity_violated_after_double_getTimer :
    ((getTimer (getTimer TimerPoolState.empty 0 1000).2 0 1000).2.live.map
        PWMTimer.timer_num_ = [0, 0]) ∧
    (getTimer (getTimer TimerPoolState.empty 0 1000).2 0 1000).2.live.length = 2 ∧
    (getTimer (getTimer TimerPoolState.empty 0 1000).2 0 1000).2.timers_in_use = [] := by
  decide

/-- Claim C3 (code_bug evaluation): constructing an OutputPWM when no free
timer exists does not propagate ResourceExhausted: getAvailableTimer returns
nullptr and the constructor dereferences it (crash).  Constructing when no
free channel exists does not fail at all: get_available_channel returns the
out-of-range sentinel LEDC_CHANNEL_MAX, which the constructor inserts into
channels_used and commits to the hardware channel configuration, leaving
partial state for an invalid channel. -/
theorem outputPWM_exhaustion_nullDeref_and_sentinel_commit :
    OutputPWM.constructAuto timersExhaustedState 13 = ConstructResult.nullDeref ∧
    OutputPWM.constructAuto channelsExhaustedState 13 =
      ConstructResult.ok
        { gpio_num_ := 13, channel_ := LEDC_CHANNEL_MAX, timer_obj := 0, duty_ := 0 }
        { pool :=
            { nextObjId := 1
              live := [{ objId := 0, timer_num_ := 0, freq_hz_ := 1000,
                         num_references_ := 1 }]
              timers_in_use := [(0, 0)] }
          channels_used := [0, 1, 2, 3, 4, 5, 6, 7, LEDC_CHANNEL_MAX] } := by
  decide

/-- Hardware side effects of the duty and frequency operations, recorded as
a trace: ledc_timer_config on a frequency change, ledc_set_duty and
ledc_update_duty on a duty commit. -/
inductive HwAction where
  | timerConfig (freq_hz : Nat)
  | ledcSetDuty (channel duty : Nat)
  | ledcUpdateDuty (channel : Nat)
deriving Repr, DecidableEq

/-- OutputPWM::setDutyValue: when the requested duty exceeds MAX_DUTY it is
clamped to MAX_DUTY and a warning is logged (the Bool component); otherwise
the value is stored as is.  The stored duty_ is then committed to hardware
with ledc_set_duty followed by ledc_update_duty. -/
def OutputPWM.setDutyValue (out : OutputPWM) (duty : Nat) :
    OutputPWM × Bool × List HwAction :=
  let clamped := if duty > MAX_DUTY then MAX_DUTY else duty
  ({ out with duty_ := clamped },
   decide (duty > MAX_DUTY),
   [HwAction.ledcSetDuty out.channel_ clamped,
    HwAction.ledcUpdateDuty out.channel_])

/-- OutputPWM::setFrequency: reconfigures the shared timer with the new
frequency (PWMTimer::setFrequency, one ledc_timer_config call) and then
calls setDutyValue(duty_) to re-apply the stored duty, since the hardware
frequency change rescales the duty. -/
def OutputPWM.setFrequency (out : OutputPWM) (freq_hz : Nat) :
    OutputPWM × List HwAction :=
  let r := out.setDutyValue out.duty_
  (r.1, HwAction.timerConfig freq_hz :: r.2.2)

/-- The duty value computed by OutputPWM::setDuty from a percentage: the
C++ expression percentage * MAX_DUTY / 100.0 evaluated in binary floating
point and implicitly converted to uint32_t, which truncates toward zero.
The arithmetic is modelled exactly over the rationals; for a nonnegative
argument truncation toward zero is the floor.  At every concrete input used
in the theorems below the floating-point evaluation is exact (all values
have small power-of-two denominators), so the rational model agrees with
the IEEE evaluation there. -/
def computedDutyValue (percentage : ℚ) : Int :=
  ⌊percentage * (MAX_DUTY : ℚ) / 100⌋

/-- Follows the words of the spec for comparison: the spec states that
setDuty converts the percentage by round(percentage * MAX_DUTY / 100). -/
def specRoundedDutyValue (percentage : ℚ) : Int :=
  round (percentage * (MAX_DUTY : ℚ) / 100)

/-- OutputPWM::setDuty: computes the integer duty value from the percentage
and passes it to setDutyValue. -/
def OutputPWM.setDuty (out : OutputPWM) (percentage : ℚ) :
    OutputPWM × Bool × List HwAction :=
  out.setDutyValue (computedDutyValue percentage).toNat

/-- Claim C6: setDutyValue stores min(v, MAX_DUTY) as the current duty (so
the stored duty is always at most MAX_DUTY = 4096), emits a warning exactly
when v exceeds MAX_DUTY, and commits the clamped value to hardware; the
call never fails. -/
theorem setDutyValue_clamps_and_warns (out : OutputPWM) (v : Nat) :
    (out.setDutyValue v).1.duty_ = min v MAX_DUTY ∧
    (out.setDutyValue v).2.1 = decide (v > MAX_DUTY) ∧
    (out.setDutyValue v).1.duty_ ≤ MAX_DUTY ∧
    (out.setDutyValue v).2.2 =
      [HwAction.ledcSetDuty out.channel_ (min v MAX_DUTY),
       HwAction.ledcUpdateDuty out.channel_] ∧
    MAX_DUTY = 4096 := by
  unfold OutputPWM.setDutyValue
  by_cases h : v > MAX_DUTY
  · simp [h, Nat.min_eq_right (Nat.le_of_lt h)]
    rfl
  · simp [h, Nat.min_eq_left (Nat.le_of_not_lt h)]
    exact ⟨Nat.le_of_not_lt h, rfl⟩

/-- Claim C7: on every setFrequency call the previously stored duty value is
re-applied after the timer frequency change: the stored duty is unchanged by
the call, and the hardware trace is exactly the timer reconfiguration
followed by the commit of the old duty value. -/
theorem setFrequency_preserves_duty (out : OutputPWM) (f : Nat)
    (h : out.duty_ ≤ MAX_DUTY) :
    (out.setFrequency f).1.duty_ = out.duty_ ∧
    (out.setFrequency f).2 =
      [HwAction.timerConfig f,
       HwAction.ledcSetDuty out.channel_ out.duty_,
       HwAction.ledcUpdateDuty out.channel_] := by
  unfold OutputPWM.setFrequency OutputPWM.setDutyValue
  have hnot : ¬ out.duty_ > MAX_DUTY := Nat.not_lt.mpr h
  simp [hnot]

/-- Witness for setFrequency_preserves_duty at a concrete output with duty
100 and a frequency change to 2000. -/
theorem setFrequency_preserves_duty_witness :
    ({ gpio_num_ := 5, channel_ := 2, timer_obj := 0, duty_ := 100 } :
        OutputPWM).duty_ ≤ MAX_DUTY ∧
    (({ gpio_num_ := 5, channel_ := 2, timer_obj := 0, duty_ := 100 } :
        OutputPWM).setFrequency 2000).1.duty_ =
      ({ gpio_num_ := 5, channel_ := 2, timer_obj := 0, duty_ := 100 } :
        OutputPWM).duty_ ∧
    (({ gpio_num_ := 5, channel_ := 2, timer_obj := 0, duty_ := 100 } :
        OutputPWM).setFrequency 2000).2 =
      [HwAction.timerConfig 2000,
       HwAction.ledcSetDuty 2 100,
       HwAction.ledcUpdateDuty 2] := by
  refine ⟨by decide, ?_, ?_⟩
  · exact (setFrequency_preserves_duty _ 2000 (by decide)).1
  · exact (setFrequency_preserves_duty _ 2000 (by decide)).2

/-- Claim C9 (counterexample): at the percentage 25/2048 (a value with a
power-of-two denominator, so the C++ float evaluation of
percentage * MAX_DUTY / 100.0 is exact and equals the rational 1/2) the
value actually computed by setDuty is the truncation 0, while the value the
claim prescribes, round(percentage * MAX_DUTY / 100) = round(1/2), is 1.
The code truncates; it does not round. -/
theorem setDuty_truncates_not_rounds_counterexample :
    computedDutyValue (25 / 2048) = 0 ∧
    specRoundedDutyValue (25 / 2048) = 1 ∧
    computedDutyValue (25 / 2048) ≠ specRoundedDutyValue (25 / 2048) := by
  have h1 : (25 / 2048 : ℚ) * (MAX_DUTY : ℚ) / 100 = 1 / 2 := by
    norm_num [MAX_DUTY]
  refine ⟨?_, ?_, ?_⟩
  · rw [computedDutyValue, h1]
    norm_num
  · rw [specRoundedDutyValue, h1]
    norm_num [round_eq]
  · rw [computedDutyValue, specRoundedDutyValue, h1]
    norm_num [round_eq]

/-- Claim C9 (amended): for every nonnegative percentage p, setDuty passes
to setDutyValue the truncation toward zero of p * MAX_DUTY / 100 (the
implicit float-to-uint32_t conversion truncates), characterized by
d ≤ p * MAX_DUTY / 100 < d + 1 with d nonnegative. -/
theorem setDuty_truncation_characterization (out : OutputPWM) (p : ℚ)
    (h : 0 ≤ p) :
    out.setDuty p = out.setDutyValue (computedDutyValue p).toNat ∧
    ((computedDutyValue p : ℚ) ≤ p * (MAX_DUTY : ℚ) / 100) ∧
    (p * (MAX_DUTY : ℚ) / 100 < (computedDutyValue p : ℚ) + 1) ∧
    0 ≤ computedDutyValue p := by
  refine ⟨rfl, Int.floor_le _, Int.lt_floor_add_one _, ?_⟩
  exact Int.floor_nonneg.mpr
    (div_nonneg (mul_nonneg h (by norm_num)) (by norm_num))

/-- A concrete OutputPWM used by witnesses. -/
def sampleOutput : OutputPWM :=
  { gpio_num_ := 5, channel_ := 2, timer_obj := 0, duty_ := 100 }

/-- Witness for setDuty_truncation_characterization at percentage 3. -/
theorem setDuty_truncation_characterization_witness :
    (0 ≤ (3 : ℚ)) ∧
    (sampleOutput.setDuty 3 =
        sampleOutput.setDutyValue (computedDutyValue 3).toNat ∧
      ((computedDutyValue 3 : ℚ) ≤ 3 * (MAX_DUTY : ℚ) / 100) ∧
      (3 * (MAX_DUTY : ℚ) / 100 < (computedDutyValue 3 : ℚ) + 1) ∧
      0 ≤ computedDutyValue 3) :=
  ⟨by norm_num, setDuty_truncation_characterization sampleOutput 3 (by norm_num)⟩

/-- The QueueData record passed through the interrupt queue: the GPIO bit
number (an int, value-initialized to 0) and the per-bit ISR function
pointer, modelled as an Option over callback identifiers where none is the
null pointer (value initialization of a function pointer). -/
structure QueueData where
  gpio_num : Nat
  individual_isr_for_bit : Option Nat
deriving Repr, DecidableEq

/-- The value-initialized QueueData produced by std::map operator[] for an
absent key: gpio_num 0 and a null function pointer. -/
def QueueData.defaultVal : QueueData :=
  { gpio_num := 0, individual_isr_for_bit := none }

/-- Capacity of the file-scope event queue, created once by the static
initializer gpio_event_queue_ = xQueueCreate(10, sizeof(queue_object_t)). -/
def QUEUE_LENGTH : Nat := 10

/-- State of the interrupt dispatcher: the bounded FIFO event queue and the
file-scope dispatch map gpio_bit_data_map_ from GPIO bit number to its
QueueData. -/
structure DispatcherState where
  gpio_event_queue_ : List QueueData
  gpio_bit_data_map_ : List (Nat × QueueData)
deriving Repr, DecidableEq

/-- Dispatcher state before any binding or interrupt. -/
def DispatcherState.empty : DispatcherState :=
  { gpio_event_queue_ := [], gpio_bit_data_map_ := [] }

/-- std::map operator[] read as used in the ISR: returns the mapped value
when the key is present, otherwise inserts a value-initialized entry for the
key and returns that default.  Yields the value together with the possibly
enlarged map. -/
def mapIndex (m : List (Nat × QueueData)) (k : Nat) :
    QueueData × List (Nat × QueueData) :=
  match alistLookup m k with
  | some v => (v, m)
  | none => (QueueData.defaultVal, m ++ [(k, QueueData.defaultVal)])

/-- xQueueSendFromISR on the bounded queue: appends the item when the queue
has room and reports success; when the queue is full it leaves the queue
unchanged and reports failure.  It never blocks (it is the from-ISR,
zero-timeout primitive); the caller in the source ignores the report. -/
def xQueueSendFromISR (q : List QueueData) (item : QueueData) :
    List QueueData × Bool :=
  if q.length < QUEUE_LENGTH then (q ++ [item], true) else (q, false)

/-- gpioIsrHandler, the interrupt-context stage: reads the QueueData for the
interrupting GPIO bit through std::map operator[] (inserting a
value-initialized record when the bit was never bound) and attempts a
non-blocking enqueue, discarding the success report. -/
def gpioIsrHandler (s : DispatcherState) (gpio_num : Nat) : DispatcherState :=
  let r := mapIndex s.gpio_bit_data_map_ gpio_num
  let q := xQueueSendFromISR s.gpio_event_queue_ r.1
  { gpio_event_queue_ := q.1, gpio_bit_data_map_ := r.2 }

/-- Observable action of the worker task on one dequeued event: either the
invocation of the ISR function pointer with the io number from the record,
or the call through a null function pointer (undefined behaviour) when the
record holds none. -/
inductive WorkerEvent where
  | invoked (isr : Nat) (io_num : Nat)
  | nullCall (io_num : Nat)
deriving Repr, DecidableEq

/-- What the worker does with one event: looks at the function pointer in
the record and calls it with the gpio number stored in the record. -/
def processEvent (d : QueueData) : WorkerEvent :=
  match d.individual_isr_for_bit with
  | some isr => WorkerEvent.invoked isr d.gpio_num
  | none => WorkerEvent.nullCall d.gpio_num

/-- The loop body of gpioIsrTaskFunction run until the queue is empty:
dequeues the front event, performs its callback invocation to completion,
and only then proceeds to the next event; blocks (stops here) on the empty
queue.  Returns the invocation trace in execution order. -/
def gpioIsrTaskRun : List QueueData → List WorkerEvent
  | [] => []
  | d :: rest => processEvent d :: gpioIsrTaskRun rest

/-- The dispatch-table part of the GpioInterrupteHandler constructor (bind):
stores the record with the bit number and the ISR function pointer into
gpio_bit_data_map_ through operator[] assignment, overwriting any previous
binding. -/
def bindPin (s : DispatcherState) (pin : Nat) (isr : Nat) : DispatcherState :=
  let d : QueueData := { gpio_num := pin, individual_isr_for_bit := some isr }
  { s with gpio_bit_data_map_ := alistSet s.gpio_bit_data_map_ pin d }

/-- The worker trace over an extended queue splits into the trace of the old
events followed by the trace of the appended ones. -/
theorem gpioIsrTaskRun_append (q r : List QueueData) :
    gpioIsrTaskRun (q ++ r) = gpioIsrTaskRun q ++ gpioIsrTaskRun r := by
  induction q with
  | nil => rfl
  | cons d rest ih => simp [gpioIsrTaskRun, ih]

/-- A dispatch record with pin 5 bound to the callback with identifier 7,
used to build concrete states. -/
def boundRecord5 : QueueData :=
  { gpio_num := 5, individual_isr_for_bit := some 7 }

/-- A dispatcher state whose queue is saturated with ten unconsumed events
and in which pin 5 is bound. -/
def fullQueueState : DispatcherState :=
  { gpio_event_queue_ := List.replicate QUEUE_LENGTH boundRecord5
    gpio_bit_data_map_ := [(5, boundRecord5)] }

/-- Claim C4 (counterexample): an interrupt on the bound pin 5 while the
queue holds QUEUE_LENGTH unconsumed events leaves the entire dispatcher
state exactly unchanged, and the enqueue primitive reports failure, a report
the handler discards.  Since no component of the program state changes, no
observable drop counter is incremented, contrary to the claim; the source
maintains no such counter. -/
theorem isr_on_full_queue_changes_no_state :
    gpioIsrHandler fullQueueState 5 = fullQueueState ∧
    (xQueueSendFromISR fullQueueState.gpio_event_queue_ boundRecord5).2 = false := by
  decide

/-- Claim C4 (amended): on a full queue the interrupt-context enqueue
attempt does not block (the from-ISR primitive is total and zero-timeout),
the event is dropped with the queue left intact, and for a bound pin the
dispatcher state is completely unchanged: the enqueue failure is silently
ignored and no drop counter is incremented. -/
theorem isr_full_queue_drops_silently (s : DispatcherState) (p : Nat)
    (hq : s.gpio_event_queue_.length = QUEUE_LENGTH)
    (hb : (alistLookup s.gpio_bit_data_map_ p).isSome) :
    gpioIsrHandler s p = s := by
  obtain ⟨v, hv⟩ := Option.isSome_iff_exists.mp hb
  unfold gpioIsrHandler mapIndex xQueueSendFromISR
  rw [hv]
  simp [hq]

/-- Witness for isr_full_queue_drops_silently at the saturated state with
pin 5 bound. -/
theorem isr_full_queue_drops_silently_witness :
    fullQueueState.gpio_event_queue_.length = QUEUE_LENGTH ∧
    (alistLookup fullQueueState.gpio_bit_data_map_ 5).isSome ∧
    gpioIsrHandler fullQueueState 5 = fullQueueState :=
  ⟨by decide, by decide,
   isr_full_queue_drops_silently fullQueueState 5 (by decide) (by decide)⟩

/-- Claim C5: for a pin p bound to callback cb, one hardware interrupt on p
with the queue not full appends exactly one event carrying p and cb to the
queue (and changes nothing else), and the worker, which invokes each
dequeued callback to completion before dequeuing the next event, performs
exactly one additional invocation of cb with argument p, after the
invocations for the events already queued. -/
theorem bind_one_interrupt_one_invocation (s : DispatcherState) (p cb : Nat)
    (hb : alistLookup s.gpio_bit_data_map_ p =
      some { gpio_num := p, individual_isr_for_bit := some cb })
    (hq : s.gpio_event_queue_.length < QUEUE_LENGTH) :
    (gpioIsrHandler s p).gpio_event_queue_ =
      s.gpio_event_queue_ ++ [{ gpio_num := p, individual_isr_for_bit := some cb }] ∧
    (gpioIsrHandler s p).gpio_bit_data_map_ = s.gpio_bit_data_map_ ∧
    gpioIsrTaskRun (gpioIsrHandler s p).gpio_event_queue_ =
      gpioIsrTaskRun s.gpio_event_queue_ ++ [WorkerEvent.invoked cb p] := by
  unfold gpioIsrHandler mapIndex xQueueSendFromISR
  rw [hb]
  simp [hq, gpioIsrTaskRun_append, gpioIsrTaskRun, processEvent]

/-- Witness for bind_one_interrupt_one_invocation: binding pin 5 to
callback 7 in the fresh dispatcher, then one interrupt on pin 5, yields one
queued event and the single invocation of 7 with argument 5. -/
theorem bind_one_interrupt_one_invocation_witness :
    alistLookup (bindPin DispatcherState.empty 5 7).gpio_bit_data_map_ 5 =
      some { gpio_num := 5, individual_isr_for_bit := some 7 } ∧
    (bindPin DispatcherState.empty 5 7).gpio_event_queue_.length < QUEUE_LENGTH ∧
    ((gpioIsrHandler (bindPin DispatcherState.empty 5 7) 5).gpio_event_queue_ =
      (bindPin DispatcherState.empty 5 7).gpio_event_queue_ ++
        [{ gpio_num := 5, individual_isr_for_bit := some 7 }] ∧
    (gpioIsrHandler (bindPin DispatcherState.empty 5 7) 5).gpio_bit_data_map_ =
      (bindPin DispatcherState.empty 5 7).gpio_bit_data_map_ ∧
    gpioIsrTaskRun
        (gpioIsrHandler (bindPin DispatcherState.empty 5 7) 5).gpio_event_queue_ =
      gpioIsrTaskRun (bindPin DispatcherState.empty 5 7).gpio_event_queue_ ++
        [WorkerEvent.invoked 7 5]) :=
  ⟨by decide, by decide,
   bind_one_interrupt_one_invocation (bindPin DispatcherState.empty 5 7) 5 7
     (by decide) (by decide)⟩

/-- Claim C10: a hardware interrupt on a pin that was never bound makes the
std::map operator[] lookup in the ISR insert a value-initialized entry (a
record with gpio number 0 and a null function pointer) into the dispatch
table from interrupt context, enqueues that default record, and the worker
later performs the call through the null function pointer (with argument 0,
the default gpio number); no guard rejects events for unbound pins. -/
theorem unbound_pin_null_callback_reaches_worker (s : DispatcherState) (p : Nat)
    (hb : alistLookup s.gpio_bit_data_map_ p = none)
    (hq : s.gpio_event_queue_.length < QUEUE_LENGTH) :
    (gpioIsrHandler s p).gpio_bit_data_map_ =
      s.gpio_bit_data_map_ ++ [(p, QueueData.defaultVal)] ∧
    (gpioIsrHandler s p).gpio_event_queue_ =
      s.gpio_event_queue_ ++ [QueueData.defaultVal] ∧
    QueueData.defaultVal.individual_isr_for_bit = none ∧
    gpioIsrTaskRun (gpioIsrHandler s p).gpio_event_queue_ =
      gpioIsrTaskRun s.gpio_event_queue_ ++ [WorkerEvent.nullCall 0] := by
  unfold gpioIsrHandler mapIndex xQueueSendFromISR
  rw [hb]
  simp [hq, gpioIsrTaskRun_append, gpioIsrTaskRun, processEvent, QueueData.defaultVal]

/-- Witness for unbound_pin_null_callback_reaches_worker: an interrupt on
the never-bound pin 3 in the fresh dispatcher state. -/
theorem unbound_pin_null_callback_reaches_worker_witness :
    alistLookup DispatcherState.empty.gpio_bit_data_map_ 3 = none ∧
    DispatcherState.empty.gpio_event_queue_.length < QUEUE_LENGTH ∧
    ((gpioIsrHandler DispatcherState.empty 3).gpio_bit_data_map_ =
      DispatcherState.empty.gpio_bit_data_map_ ++ [(3, QueueData.defaultVal)] ∧
    (gpioIsrHandler DispatcherState.empty 3).gpio_event_queue_ =
      DispatcherState.empty.gpio_event_queue_ ++ [QueueData.defaultVal] ∧
    QueueData.defaultVal.individual_isr_for_bit = none ∧
    gpioIsrTaskRun (gpioIsrHandler DispatcherState.empty 3).gpio_event_queue_ =
      gpioIsrTaskRun DispatcherState.empty.gpio_event_queue_ ++
        [WorkerEvent.nullCall 0]) :=
  ⟨by decide, by decide,
   unbound_pin_null_callback_reaches_worker DispatcherState.empty 3
     (by decide) (by decide)⟩

/-- The three observable steps of the body of initializeIfNeeded: read the
static flag (returning early when it is set), call xTaskCreate for the
worker task, and set the flag.  The flag is a plain static bool; there is no
atomic check-and-set in the source. -/
inductive InitStep where
  | checkInitialized
  | createTask
  | setInitialized
deriving Repr, DecidableEq

/-- Shared state of the lazy initialization: the static bool initialized and
the number of worker tasks created so far by xTaskCreate. -/
structure InitState where
  initialized : Bool
  tasksCreated : Nat
deriving Repr, DecidableEq

/-- The step sequence one call of initializeIfNeeded executes when it does
not return early. -/
def initializeIfNeededBody : List InitStep :=
  [InitStep.checkInitialized, InitStep.createTask, InitStep.setInitialized]

/-- Effect of one step of one task on the shared state; returns the state
together with the remaining steps of that task (the early return on a set
flag discards the rest of the body). -/
def stepThread (st : InitState) (steps : List InitStep) :
    InitState × List InitStep :=
  match steps with
  | [] => (st, [])
  | InitStep.checkInitialized :: rest =>
      if st.initialized then (st, []) else (st, rest)
  | InitStep.createTask :: rest =>
      ({ st with tasksCreated := st.tasksCreated + 1 }, rest)
  | InitStep.setInitialized :: rest =>
      ({ st with initialized := true }, rest)

/-- Interleaved execution of several tasks each running
initializeIfNeededBody: the schedule names, step by step, which task runs
next. -/
def runSchedule :
    InitState → List (List InitStep) → List Nat → InitState × List (List InitStep)
  | st, threads, [] => (st, threads)
  | st, threads, i :: rest =>
      let r := stepThread st (threads.getD i [])
      runSchedule r.1 (threads.set i r.2) rest

/-- One call of initializeIfNeeded executed without interference (all three
steps consecutively): returns early when the flag is set, otherwise creates
one worker task and sets the flag. -/
def initializeIfNeeded (st : InitState) : InitState :=
  if st.initialized then st
  else { initialized := true, tasksCreated := st.tasksCreated + 1 }

/-- Running one task through the whole body without interleaving agrees with
the sequential function initializeIfNeeded. -/
theorem runSchedule_one_thread_seq (st : InitState) :
    (runSchedule st [initializeIfNeededBody] [0, 0, 0]).1 =
      initializeIfNeeded st := by
  rcases st with ⟨b, n⟩
  cases b <;> rfl

/-- Iterating initializeIfNeeded leaves an initialized state unchanged. -/
theorem initializeIfNeeded_iterate_fixed (k : Nat) :
    initializeIfNeeded^[k] { initialized := true, tasksCreated := 1 } =
      { initialized := true, tasksCreated := 1 } := by
  induction k with
  | zero => rfl
  | succ m ih =>
      rw [Function.iterate_succ_apply]
      exact ih

/-- Claim C8 (counterexample): the guard in initializeIfNeeded is a plain
boolean read-then-write, so under the interleaving in which two tasks both
read the flag before either writes it, both calls run xTaskCreate and two
worker tasks are created, contradicting the claim that even under
concurrent first-time calls exactly one worker task is ever created via an
atomic check-and-set. -/
theorem concurrent_init_creates_two_tasks :
    (runSchedule { initialized := false, tasksCreated := 0 }
        [initializeIfNeededBody, initializeIfNeededBody] [0, 1, 0, 1, 0, 1]).1 =
      { initialized := true, tasksCreated := 2 } := by
  decide

/-- Claim C8 (amended): worker-task creation is lazy and one-time only under
non-overlapping calls: any positive number of sequential initializeIfNeeded
calls creates exactly one worker task and leaves the flag set, and two tasks
whose bodies run without overlap also create exactly one task; the event
queue itself (capacity QUEUE_LENGTH = 10) is created once by a file-scope
static initializer, not by the first bind call. -/
theorem sequential_init_creates_one_task (n : Nat) (h : 1 ≤ n) :
    initializeIfNeeded^[n] { initialized := false, tasksCreated := 0 } =
      { initialized := true, tasksCreated := 1 } ∧
    (runSchedule { initialized := false, tasksCreated := 0 }
        [initializeIfNeededBody, initializeIfNeededBody] [0, 0, 0, 1, 1, 1]).1 =
      { initialized := true, tasksCreated := 1 } ∧
    QUEUE_LENGTH = 10 := by
  refine ⟨?_, by decide, rfl⟩
  obtain ⟨k, rfl⟩ : ∃ k, n = k + 1 := ⟨n - 1, (Nat.sub_add_cancel h).symm⟩
  rw [Function.iterate_succ_apply]
  exact initializeIfNeeded_iterate_fixed k

/-- Witness for sequential_init_creates_one_task at n = 2. -/
theorem sequential_init_creates_one_task_witness :
    1 ≤ 2 ∧
    (initializeIfNeeded^[2] { initialized := false, tasksCreated := 0 } =
        { initialized := true, tasksCreated := 1 } ∧
    (runSchedule { initialized := false, tasksCreated := 0 }
        [initializeIfNeededBody, initializeIfNeededBody] [0, 0, 0, 1, 1, 1]).1 =
        { initialized := true, tasksCreated := 1 } ∧
    QUEUE_LENGTH = 10) :=
  ⟨by decide, sequential_init_creates_one_task 2 (by decide)⟩

end Idfx
